import Mathlib

/-!
The browser controller `static/js/app.js` of simulador-firewall.

A shallow embedding of the page controller: the packet-test form and its history
list, the rule editor (one form, create or edit), and the calls to the backend.

The page is a record of the DOM parts the script reads and writes, together with a
log of what the script does to the outside (dialogs, requests, reloads, console).
What the outside answers (the confirm dialog, the fetch) is an argument of each
operation.
-/

namespace SimuladorFirewall

/-! ## JavaScript values and the primitives the script uses -/

/-- A JavaScript value as the script meets it: what `response.json()` produces, and
`undefined` for a property that is not there. A number is held as its decimal
rendering `String(n)`; both zeros render as "0". -/
inductive JsVal where
  | undefined : JsVal
  | null : JsVal
  | bool (b : Bool) : JsVal
  | num (rendering : String) : JsVal
  | str (s : String) : JsVal
  | arr (elems : List JsVal) : JsVal
  | obj (fields : List (String × JsVal)) : JsVal

/-- Truthiness (`ToBoolean`): `undefined`, `null`, `false`, zero and the empty string
are falsy, everything else (every array and object included) is truthy. -/
def JsVal.truthy : JsVal → Bool
  | .undefined => false
  | .null => false
  | .bool b => b
  | .num r => r != "0"
  | .str s => s != ""
  | .arr _ => true
  | .obj _ => true

/-- Joining rendered elements with commas, as `Array.prototype.join` does. -/
def joinComma : List String → String
  | [] => ""
  | [s] => s
  | s :: rest => s ++ "," ++ joinComma rest

/-- Whether a parsed object has an own member of that name. -/
def temCampo (key : String) (fields : List (String × JsVal)) : Bool :=
  fields.any (fun campo => campo.1 == key)

mutual
/-- String conversion of a value, as done by `+` with a string and by a template
literal; `none` is a `TypeError`. A parsed object converts through the inherited
`toString` to "[object Object]", unless it has an own member named `toString`: that
member is never callable, the inherited `valueOf` gives back the object, and the
conversion throws. An array converts through `join`. -/
def JsVal.toStr : JsVal → Option String
  | .undefined => some "undefined"
  | .null => some "null"
  | .bool true => some "true"
  | .bool false => some "false"
  | .num r => some r
  | .str s => some s
  | .arr elems =>
    match JsVal.elemsToStr elems with
    | some textos => some (joinComma textos)
    | none => none
  | .obj fields => if temCampo "toString" fields then none else some "[object Object]"
/-- The renderings of the elements of an array, first to last, inside `join`: `null`
and `undefined` render as the empty string, and the first conversion that throws
ends the whole. -/
def JsVal.elemsToStr : List JsVal → Option (List String)
  | [] => some []
  | .undefined :: rest =>
    match JsVal.elemsToStr rest with
    | some textos => some ("" :: textos)
    | none => none
  | .null :: rest =>
    match JsVal.elemsToStr rest with
    | some textos => some ("" :: textos)
    | none => none
  | v :: rest =>
    match JsVal.toStr v with
    | none => none
    | some texto =>
      match JsVal.elemsToStr rest with
      | some textos => some (texto :: textos)
      | none => none
end

/-- Looking a key up in the members of a parsed object, given in the order of the
JSON text: a repeated key has its last value, as `JSON.parse` leaves it. -/
def lookupField (key : String) : List (String × JsVal) → JsVal
  | [] => .undefined
  | (k, v) :: rest =>
    if temCampo key rest then lookupField key rest
    else if k = key then v else .undefined

/-- Property access `v.key` for one of the data keys the script reads (`erro`, `ip`,
`porta`, `servico`, `timestamp`, `conectividade`, `decisao`): a `TypeError` (here
`none`) on `null` and `undefined`, the field of an object, and `undefined` on every
other value, whose prototypes define none of these keys. -/
def JsVal.getProp (v : JsVal) (key : String) : Option JsVal :=
  match v with
  | .undefined => none
  | .null => none
  | .obj fields => some (lookupField key fields)
  | _ => some .undefined

/-- The operator `a || b` with a string on the right. -/
def JsVal.orElse (a : JsVal) (b : String) : JsVal :=
  if a.truthy then a else .str b

/-- Code points that `String.prototype.trim` removes: the ECMAScript white space and
line terminator characters. -/
def isJsWhitespace (c : Char) : Bool :=
  c.toNat = 0x09 || c.toNat = 0x0A || c.toNat = 0x0B || c.toNat = 0x0C ||
  c.toNat = 0x0D || c.toNat = 0x20 || c.toNat = 0xA0 || c.toNat = 0x1680 ||
  (0x2000 ≤ c.toNat && c.toNat ≤ 0x200A) || c.toNat = 0x2028 || c.toNat = 0x2029 ||
  c.toNat = 0x202F || c.toNat = 0x205F || c.toNat = 0x3000 || c.toNat = 0xFEFF

/-- The method `s.trim()`: white space removed from both ends. -/
def trim (s : String) : String :=
  String.mk ((s.data.dropWhile isJsWhitespace).reverse.dropWhile isJsWhitespace).reverse

/-! ## The page -/

/-- A child of `testesContainer`: a test card (`div.teste-card`, held as the markup
of its content), the empty-state paragraph (`p.empty-message`), or any other node
that does not carry that class itself (held as its markup). -/
inductive Node where
  | testeCard (innerHTML : String) : Node
  | emptyMessage (text : String) : Node
  | outro (html : String) : Node
  deriving DecidableEq, Repr

/-- The four controls of `formRegra`. -/
inductive Campo where
  | modalIp : Campo
  | modalPorta : Campo
  | modalAcao : Campo
  | modalDescricao : Campo
  deriving DecidableEq, Repr

/-- A row `.regra-row` of the rule table: its `data-index` and the text content of
its `.ip`, `.porta`, `.badge` and `.descricao` cells. -/
structure RegraRow where
  index : String
  ip : String
  porta : String
  badge : String
  descricao : String
  deriving DecidableEq, Repr

/-- A call of `fetch`: method, URL and, when a body is sent, the object handed to
`JSON.stringify` as its list of keys and values. -/
structure Request where
  method : String
  url : String
  body : Option (List (String × String))
  deriving DecidableEq, Repr

/-- What a call of `fetch` comes back with: the promise rejects (no response), or a
response with its `ok` flag and what `response.json()` gives (`none` when the body
does not parse). -/
inductive FetchResult where
  | rejeitado : FetchResult
  | resposta (ok : Bool) (json : Option JsVal) : FetchResult

/-- The state the script reads and writes, and a log of its effects. -/
structure Pagina where
  /-- Value of `#ip` in `formTeste`. -/
  ipInput : String
  /-- Value of `#porta` in `formTeste`. -/
  portaInput : String
  /-- Children of `#testesContainer`, first child first. -/
  testesContainer : List Node
  /-- Rows of the rule table, in document order. -/
  regras : List RegraRow
  /-- Whether `#modalRegra` carries the class `active`. -/
  modalAtivo : Bool
  /-- Text of `#modalTitle`. -/
  modalTitle : String
  modalIp : String
  modalIpDisabled : Bool
  modalPorta : String
  modalPortaDisabled : Bool
  modalAcao : String
  modalDescricao : String
  /-- The global `editandoIndex`; `none` is `null`. -/
  editandoIndex : Option String
  /-- Id of the element that last received `focus()`. -/
  foco : Option String
  /-- Messages passed to `alert`, oldest first. -/
  alerts : List String
  /-- Calls of `fetch`, oldest first. -/
  requests : List Request
  /-- Number of calls of `location.reload()`. -/
  reloads : Nat
  /-- First argument of each `console.error`, oldest first. -/
  consoleErrors : List String
  /-- Number of exceptions that left a handler uncaught. -/
  uncaught : Nat
  /-- What the HTML parser of the browser makes of markup when
  `querySelector` looks for `.empty-message` in it: `none` when the parsed markup
  holds no element of that class, otherwise the markup that is left once the first
  such element, in document order, is taken out. -/
  buscarEmptyMessage : String → Option String
  /-- What `document.querySelector` gives for the selector built from a data index
  that is not a plain literal (it holds a double quote, a backslash, a line break or
  a NUL, which the selector grammar reads as syntax): the row matched, or `none`
  when the call throws or matches nothing. -/
  seletorNaoLiteral : String → Option RegraRow
  /-- What a control of `formRegra` holds once the script assigns a string to its
  `value`: the kind of each control (text, number, select) is in the page markup, and
  each kind has its own sanitization. -/
  aoAtribuir : Campo → String → String

/-- Modelled from the spec: the default value of every field of `formTeste` and
`formRegra`, which `reset()` restores. The page markup is not among the sources; the
spec says a reset form is blank. -/
def valorPadrao : String := ""

/-- The call `alert(msg)`. -/
def Pagina.alert (p : Pagina) (msg : String) : Pagina :=
  { p with alerts := p.alerts ++ [msg] }

/-- The call `fetch(url, ...)`, recorded. -/
def Pagina.enviar (p : Pagina) (r : Request) : Pagina :=
  { p with requests := p.requests ++ [r] }

/-- The call `formRegra.reset()`: values go back to their defaults; `disabled` is
not a value and stays. -/
def Pagina.resetFormRegra (p : Pagina) : Pagina :=
  { p with modalIp := valorPadrao, modalPorta := valorPadrao,
           modalAcao := valorPadrao, modalDescricao := valorPadrao }

/-- The call `formTeste.reset()`. -/
def Pagina.resetFormTeste (p : Pagina) : Pagina :=
  { p with ipInput := valorPadrao, portaInput := valorPadrao }

/-! ## Packet tests and their history -/

/-- The connectivity markup chosen in `adicionarTesteAoHistorico` (lines 90-97):
`=== null` first, then truthiness. -/
def conectividadeHTML (conectividade : JsVal) : String :=
  match conectividade with
  | .null => "<span class=\"icon\">⚠️</span> Host não encontrado"
  | c =>
    if c.truthy then "<span class=\"icon\">✓</span> Porta ABERTA"
    else "<span class=\"icon\">✗</span> Porta FECHADA"

/-- The strict comparison of `teste.decisao` with the string PERMITIDO. -/
def ehPermitido (decisao : JsVal) : Bool :=
  match decisao with
  | .str s => s == "PERMITIDO"
  | _ => false

/-- The class chosen for the decision (line 99). -/
def decisaoClass (decisao : JsVal) : String :=
  if ehPermitido decisao then "permitido" else "bloqueado"

/-- The decision markup (lines 100-102). -/
def decisaoHTML (decisao : JsVal) : String :=
  if ehPermitido decisao then "<span class=\"icon\">✅</span> PERMITIDO"
  else "<span class=\"icon\">❌</span> BLOQUEADO"

/-- The template literal assigned to `testeCard.innerHTML` (lines 104-114), given the
four interpolated fields already converted to strings. -/
def cardInnerHTML (ip porta servico timestamp : String) (conectividade decisao : JsVal) :
    String :=
  "\n        <div class=\"teste-header\">" ++
  "\n            <span class=\"teste-ip\">" ++ ip ++ ":" ++ porta ++ "</span>" ++
  "\n            <span class=\"teste-servico\">" ++ servico ++ "</span>" ++
  "\n            <span class=\"teste-timestamp\">" ++ timestamp ++ "</span>" ++
  "\n        </div>" ++
  "\n        <div class=\"teste-body\">" ++
  "\n            <div class=\"teste-conectividade\">" ++ conectividadeHTML conectividade ++ "</div>" ++
  "\n            <div class=\"teste-decisao " ++ decisaoClass decisao ++ "\">" ++
    decisaoHTML decisao ++ "</div>" ++
  "\n        </div>" ++
  "\n    "

/-- The card built for a test result (lines 87-114), or `none` when building it
throws: reading a property of `null` or `undefined`, or converting to a string a
field that has an own `toString` member. Nothing is inserted before that. -/
def criarCard (teste : JsVal) : Option Node :=
  match teste.getProp "conectividade", teste.getProp "decisao", teste.getProp "ip",
        teste.getProp "porta", teste.getProp "servico", teste.getProp "timestamp" with
  | some conectividade, some decisao, some ip, some porta, some servico, some timestamp =>
    match ip.toStr, porta.toStr, servico.toStr, timestamp.toStr with
    | some ip, some porta, some servico, some timestamp =>
      some (.testeCard (cardInnerHTML ip porta servico timestamp conectividade decisao))
    | _, _, _, _ => none
  | _, _, _, _, _, _ => none

/-- The effect of `querySelector` for `.empty-message` on the container followed by
`remove()`: the first element of that class in document order leaves the page. The
search goes child by child and into each child: inside a card or another node it is
the parser of the browser that tells whether such an element is there. -/
def removeEmptyMessage (buscar : String → Option String) : List Node → List Node
  | [] => []
  | .emptyMessage _ :: rest => rest
  | .testeCard innerHTML :: rest =>
    match buscar innerHTML with
    | some resto => .testeCard resto :: rest
    | none => .testeCard innerHTML :: removeEmptyMessage buscar rest
  | .outro html :: rest =>
    match buscar html with
    | some resto => .outro resto :: rest
    | none => .outro html :: removeEmptyMessage buscar rest

/-- The function `adicionarTesteAoHistorico(teste)`; `none` when it throws, which can
only happen before the container is touched. -/
def adicionarTesteAoHistorico (p : Pagina) (teste : JsVal) : Option Pagina :=
  match criarCard teste with
  | none => none
  | some testeCard =>
    some { p with testesContainer :=
      removeEmptyMessage p.buscarEmptyMessage (testeCard :: p.testesContainer) }

/-- The `catch` block of `testarPacote` (lines 80-83). -/
def catchTestarPacote (p : Pagina) : Pagina :=
  { p with consoleErrors := p.consoleErrors ++ ["Erro ao testar pacote:"] }.alert
    "Erro ao testar pacote"

/-- The function `testarPacote(e)`, given what `fetch` comes back with. -/
def testarPacote (p : Pagina) (fetch : FetchResult) : Pagina :=
  let ip := trim p.ipInput
  let porta := trim p.portaInput
  if ip = "" ∨ porta = "" then
    p.alert "Por favor, preencha IP e Porta"
  else
    let p := p.enviar ⟨"POST", "/api/testar-pacote", some [("ip", ip), ("porta", porta)]⟩
    match fetch with
    | .rejeitado => catchTestarPacote p
    | .resposta false json =>
      match json with
      | none => catchTestarPacote p
      | some error =>
        match error.getProp "erro" with
        | none => catchTestarPacote p
        | some erro =>
          match (erro.orElse "Erro desconhecido").toStr with
          | none => catchTestarPacote p
          | some texto => p.alert ("Erro: " ++ texto)
    | .resposta true json =>
      match json with
      | none => catchTestarPacote p
      | some resultado =>
        match adicionarTesteAoHistorico p resultado with
        | none => catchTestarPacote p
        | some p => { p.resetFormTeste with foco := some "ip" }

/-- The `catch` block of `limparTestes` (lines 256-259). -/
def catchLimparTestes (p : Pagina) : Pagina :=
  { p with consoleErrors := p.consoleErrors ++ ["Erro ao limpar testes:"] }.alert
    "Erro ao limpar histórico"

/-- The function `limparTestes()`, given the answer to `confirm` and what `fetch`
comes back with. -/
def limparTestes (p : Pagina) (confirmado : Bool) (fetch : FetchResult) : Pagina :=
  if !confirmado then p
  else
    let p := p.enviar ⟨"DELETE", "/api/testes", none⟩
    match fetch with
    | .rejeitado => catchLimparTestes p
    | .resposta false _ => p.alert "Erro ao limpar histórico"
    | .resposta true _ =>
      { p with testesContainer := [.emptyMessage "Nenhum teste realizado ainda"] }


/-! ## The rule editor -/

/-- The function `abrirModalAdicionar()`. -/
def abrirModalAdicionar (p : Pagina) : Pagina :=
  let p := { p with editandoIndex := none, modalTitle := "Adicionar Regra" }
  let p := p.resetFormRegra
  { p with modalIpDisabled := false, modalPortaDisabled := false,
           modalAtivo := true, foco := some "modalIp" }

/-- The first row, in document order, that carries the data index. -/
def buscarRow (index : String) : List RegraRow → Option RegraRow
  | [] => none
  | row :: rest => if row.index = index then some row else buscarRow index rest

/-- Characters that the quoted string of a selector does not take as they are: the
double quote, the backslash, the line breaks and NUL. -/
def caractereDeSeletor (c : Char) : Bool :=
  c.toNat = 0x22 || c.toNat = 0x5C || c.toNat = 0x0A || c.toNat = 0x0D ||
  c.toNat = 0x0C || c.toNat = 0x00

/-- Whether a data index goes into the selector as a plain literal. -/
def indiceLiteral (index : String) : Bool :=
  !index.data.any caractereDeSeletor

/-- The call `document.querySelector` at line 140, the index pasted between double
quotes: for a plain literal it is the first row carrying that data index, for any
other text the selector engine of the browser decides. `none` stands for a call
that throws or gives `null`; either way the next line throws. -/
def querySelectorRow (p : Pagina) (index : String) : Option RegraRow :=
  if indiceLiteral index then buscarRow index p.regras else p.seletorNaoLiteral index

/-- The function `abrirModalEditar(index)`. When no row comes back, the function
throws after its first two assignments. -/
def abrirModalEditar (p : Pagina) (index : String) : Pagina :=
  let p := { p with editandoIndex := some index, modalTitle := "Editar Regra" }
  match querySelectorRow p index with
  | none => { p with uncaught := p.uncaught + 1 }
  | some row =>
    let ip := row.ip
    let porta := row.porta
    let acao := trim row.badge
    let descricao := row.descricao
    { p with modalIp := p.aoAtribuir .modalIp ip,
             modalPorta := p.aoAtribuir .modalPorta porta,
             modalAcao := p.aoAtribuir .modalAcao acao,
             modalDescricao :=
               p.aoAtribuir .modalDescricao (if descricao = "-" then "" else descricao),
             modalIpDisabled := true, modalPortaDisabled := true,
             modalAtivo := true }

/-- The function `fecharModal()`. -/
def fecharModal (p : Pagina) : Pagina :=
  let p := { p with modalAtivo := false }
  let p := p.resetFormRegra
  { p with editandoIndex := none }

/-- The `catch` block of `salvarRegra` (lines 209-212). -/
def catchSalvarRegra (p : Pagina) : Pagina :=
  { p with consoleErrors := p.consoleErrors ++ ["Erro ao salvar regra:"] }.alert
    "Erro ao salvar regra"

/-- The request `salvarRegra` builds once the gate is passed (lines 180-198). -/
def requestSalvar (editandoIndex : Option String) (ip porta acao descricao : String) :
    Request :=
  match editandoIndex with
  | some index =>
    ⟨"PUT", "/api/regras/" ++ index, some [("acao", acao), ("descricao", descricao)]⟩
  | none =>
    ⟨"POST", "/api/regras",
      some [("ip", ip), ("porta", porta), ("acao", acao), ("descricao", descricao)]⟩

/-- The function `salvarRegra(e)`, given what `fetch` comes back with. The action is
read as it is; the three other fields are trimmed. -/
def salvarRegra (p : Pagina) (fetch : FetchResult) : Pagina :=
  let ip := trim p.modalIp
  let porta := trim p.modalPorta
  let acao := p.modalAcao
  let descricao := trim p.modalDescricao
  if ip = "" ∨ porta = "" ∨ acao = "" then
    p.alert "Por favor, preencha todos os campos obrigatórios"
  else
    let p := p.enviar (requestSalvar p.editandoIndex ip porta acao descricao)
    match fetch with
    | .rejeitado => catchSalvarRegra p
    | .resposta false json =>
      match json with
      | none => catchSalvarRegra p
      | some error =>
        match error.getProp "erro" with
        | none => catchSalvarRegra p
        | some erro =>
          match (erro.orElse "Erro desconhecido").toStr with
          | none => catchSalvarRegra p
          | some texto => p.alert ("Erro: " ++ texto)
    | .resposta true _ =>
      let p := fecharModal p
      { p with reloads := p.reloads + 1 }

/-- The `catch` block of `deletarRegra` (lines 233-236). -/
def catchDeletarRegra (p : Pagina) : Pagina :=
  { p with consoleErrors := p.consoleErrors ++ ["Erro ao deletar regra:"] }.alert
    "Erro ao deletar regra"

/-- The function `deletarRegra(index)`, given the answer to `confirm` and what
`fetch` comes back with. -/
def deletarRegra (p : Pagina) (index : String) (confirmado : Bool)
    (fetch : FetchResult) : Pagina :=
  if !confirmado then p
  else
    let p := p.enviar ⟨"DELETE", "/api/regras/" ++ index, none⟩
    match fetch with
    | .rejeitado => catchDeletarRegra p
    | .resposta false json =>
      match json with
      | none => catchDeletarRegra p
      | some error =>
        match error.getProp "erro" with
        | none => catchDeletarRegra p
        | some erro =>
          match (erro.orElse "Erro desconhecido").toStr with
          | none => catchDeletarRegra p
          | some texto => p.alert ("Erro: " ++ texto)
    | .resposta true _ => { p with reloads := p.reloads + 1 }

/-- The operator typing into the editor form. Any content is allowed here, whatever
the `disabled` flags say. -/
def Pagina.digitar (p : Pagina) (ip porta acao descricao : String) : Pagina :=
  { p with modalIp := ip, modalPorta := porta, modalAcao := acao,
           modalDescricao := descricao }

/-- The value sanitization of a single-line text input: line breaks are stripped. -/
def semQuebras (s : String) : String :=
  String.mk (s.data.filter (fun c => !(c.toNat = 0x0A || c.toNat = 0x0D)))

/-- A page with nothing on it, for examples: its four controls are single-line text
inputs, and the markup the examples put on it holds no element of class
`empty-message` unless an example says otherwise. -/
def paginaVazia : Pagina :=
  { ipInput := "", portaInput := "", testesContainer := [], regras := [],
    modalAtivo := false, modalTitle := "", modalIp := "", modalIpDisabled := false,
    modalPorta := "", modalPortaDisabled := false, modalAcao := "",
    modalDescricao := "", editandoIndex := none, foco := none, alerts := [],
    requests := [], reloads := 0, consoleErrors := [], uncaught := 0,
    buscarEmptyMessage := fun _ => none, seletorNaoLiteral := fun _ => none,
    aoAtribuir := fun _ valor => semQuebras valor }

/-- The keys of the body of a request (none when no body is sent). -/
def Request.chaves (r : Request) : List String :=
  match r.body with
  | none => []
  | some campos => campos.map Prod.fst

/-- A page with one rule row, index "0", and one earlier test in the history. -/
def paginaExemplo : Pagina :=
  { paginaVazia with
    regras := [⟨"0", "192.168.0.1", "80", "\n  PERMITIR\n", "-"⟩],
    testesContainer := [.testeCard "<div>10.0.0.5:22</div>"] }

/-- A save, delete or test request failed: no response at all, or a response that
is not `ok`. -/
def FetchResult.falhou : FetchResult → Bool
  | .rejeitado => true
  | .resposta ok _ => !ok

/-- The three operations whose failure branch reads the `erro` field (lines 67-71,
200-204, 225-229). -/
inductive Operacao where
  | testar : Operacao
  | salvar : Operacao
  | deletar (index : String) : Operacao

/-- Running an operation; a deletion is run with its confirmation accepted. -/
def Operacao.executar (op : Operacao) (p : Pagina) (fetch : FetchResult) : Pagina :=
  match op with
  | .testar => testarPacote p fetch
  | .salvar => salvarRegra p fetch
  | .deletar index => deletarRegra p index true fetch

/-- The message of the `catch` block of an operation. -/
def Operacao.mensagemGenerica : Operacao → String
  | .testar => "Erro ao testar pacote"
  | .salvar => "Erro ao salvar regra"
  | .deletar _ => "Erro ao deletar regra"

/-- Whether the operation gets as far as calling the backend: the local gate of
`testarPacote` or `salvarRegra` passes. -/
def Operacao.chamaBackend (op : Operacao) (p : Pagina) : Bool :=
  match op with
  | .testar => trim p.ipInput != "" && trim p.portaInput != ""
  | .salvar => trim p.modalIp != "" && trim p.modalPorta != "" && p.modalAcao != ""
  | .deletar _ => true

/-- The test form filled with an address and a port. -/
def paginaTeste : Pagina :=
  { paginaExemplo with ipInput := " 10.0.0.5", portaInput := "22 " }

/-- The result of the scenario of the spec: SSH on 10.0.0.5, open and allowed. -/
def resultadoSsh : JsVal :=
  .obj [("ip", .str "10.0.0.5"), ("porta", .num "22"), ("servico", .str "SSH"),
        ("timestamp", .str "12:00:00"), ("conectividade", .bool true),
        ("decisao", .str "PERMITIDO")]

/-- The editor open on row "0" with the action changed, ready to be saved. -/
def paginaEditando : Pagina :=
  (abrirModalEditar paginaExemplo "0").digitar "192.168.0.1" "80" "BLOQUEAR" "servidor web"

/-- A test result whose service name carries markup: an element of class
`empty-message`. -/
def resultadoMarcado : JsVal :=
  .obj [("ip", .str "10.0.0.5"), ("porta", .num "22"),
        ("servico", .str "<i class=\"empty-message\">x</i>"),
        ("timestamp", .str "12:00:00"), ("conectividade", .bool true),
        ("decisao", .str "PERMITIDO")]

/-- The test form filled, on a page whose history is the empty-state paragraph alone
and whose parser answers as `buscar` does. -/
def paginaSemTestes (buscar : String → Option String) : Pagina :=
  { paginaTeste with
    testesContainer := [.emptyMessage "Nenhum teste realizado ainda"],
    buscarEmptyMessage := buscar }

/-- The markup of the card built for `resultadoMarcado`: the template with the
fields pasted in as they are, the element of class `empty-message` among them. -/
def cardMarcado : String :=
  "\n        <div class=\"teste-header\">" ++
  "\n            <span class=\"teste-ip\">10.0.0.5:22</span>" ++
  "\n            <span class=\"teste-servico\"><i class=\"empty-message\">x</i></span>" ++
  "\n            <span class=\"teste-timestamp\">12:00:00</span>" ++
  "\n        </div>" ++
  "\n        <div class=\"teste-body\">" ++
  "\n            <div class=\"teste-conectividade\"><span class=\"icon\">✓</span> Porta ABERTA</div>" ++
  "\n            <div class=\"teste-decisao permitido\"><span class=\"icon\">✅</span> PERMITIDO</div>" ++
  "\n        </div>" ++
  "\n    "

/-- The markup of the card built for `resultadoSsh`. -/
def cardSsh : String :=
  "\n        <div class=\"teste-header\">" ++
  "\n            <span class=\"teste-ip\">10.0.0.5:22</span>" ++
  "\n            <span class=\"teste-servico\">SSH</span>" ++
  "\n            <span class=\"teste-timestamp\">12:00:00</span>" ++
  "\n        </div>" ++
  "\n        <div class=\"teste-body\">" ++
  "\n            <div class=\"teste-conectividade\"><span class=\"icon\">✓</span> Porta ABERTA</div>" ++
  "\n            <div class=\"teste-decisao permitido\"><span class=\"icon\">✅</span> PERMITIDO</div>" ++
  "\n        </div>" ++
  "\n    "

/-! ## Shared facts about `salvarRegra` -/

theorem salvarRegra_blocked (p : Pagina) (fetch : FetchResult)
    (h : trim p.modalIp = "" ∨ trim p.modalPorta = "" ∨ p.modalAcao = "") :
    salvarRegra p fetch = p.alert "Por favor, preencha todos os campos obrigatórios" := by
  unfold salvarRegra
  simp only [h, if_true]

theorem salvarRegra_requests_of_pass (p : Pagina) (fetch : FetchResult)
    (h : ¬ (trim p.modalIp = "" ∨ trim p.modalPorta = "" ∨ p.modalAcao = "")) :
    (salvarRegra p fetch).requests = p.requests ++
      [requestSalvar p.editandoIndex (trim p.modalIp) (trim p.modalPorta) p.modalAcao
        (trim p.modalDescricao)] := by
  unfold salvarRegra
  simp only [h, if_false]
  cases fetch with
  | rejeitado => rfl
  | resposta ok json =>
    cases ok with
    | true => rfl
    | false =>
      cases json with
      | none => rfl
      | some error =>
        simp only
        cases error.getProp "erro" with
        | none => rfl
        | some erro =>
          simp only
          cases (erro.orElse "Erro desconhecido").toStr <;> rfl

/-- What the gate of `salvarRegra` does block: an address or a port that is empty
after trimming, or an action that is the empty string as read. No request is sent
and the local validation message is shown. -/
theorem salvarRegra_gate_blocks (p : Pagina) (fetch : FetchResult)
    (h : trim p.modalIp = "" ∨ trim p.modalPorta = "" ∨ p.modalAcao = "") :
    (salvarRegra p fetch).requests = p.requests ∧
    (salvarRegra p fetch).alerts =
      p.alerts ++ ["Por favor, preencha todos os campos obrigatórios"] ∧
    (salvarRegra p fetch).reloads = p.reloads := by
  rw [salvarRegra_blocked p fetch h]
  exact ⟨rfl, rfl, rfl⟩

/-! ## C1 -/

/-- C1: when `salvarRegra` runs in edit mode (`editandoIndex` is not null) and the
validation gate passes, the one request it sends has a body with exactly the keys
`acao` and `descricao` (the action as read, the description trimmed) and with neither
`ip` nor `porta`, whatever the identity inputs hold. -/
theorem salvarRegra_edit_body_excludes_identity (p : Pagina) (fetch : FetchResult)
    (hedit : p.editandoIndex ≠ none)
    (hip : trim p.modalIp ≠ "") (hporta : trim p.modalPorta ≠ "")
    (hacao : p.modalAcao ≠ "") :
    ∃ r : Request, (salvarRegra p fetch).requests = p.requests ++ [r] ∧
      r.body = some [("acao", p.modalAcao), ("descricao", trim p.modalDescricao)] ∧
      r.chaves = ["acao", "descricao"] ∧ "ip" ∉ r.chaves ∧ "porta" ∉ r.chaves := by
  have hgate : ¬ (trim p.modalIp = "" ∨ trim p.modalPorta = "" ∨ p.modalAcao = "") := by
    rintro (h | h | h)
    · exact hip h
    · exact hporta h
    · exact hacao h
  obtain ⟨index, hindex⟩ : ∃ index, p.editandoIndex = some index := by
    cases hcase : p.editandoIndex with
    | none => exact absurd hcase hedit
    | some index => exact ⟨index, rfl⟩
  refine ⟨requestSalvar p.editandoIndex (trim p.modalIp) (trim p.modalPorta) p.modalAcao
    (trim p.modalDescricao), salvarRegra_requests_of_pass p fetch hgate, ?_⟩
  rw [hindex]
  have hchaves : (requestSalvar (some index) (trim p.modalIp) (trim p.modalPorta)
      p.modalAcao (trim p.modalDescricao)).chaves = ["acao", "descricao"] := rfl
  refine ⟨rfl, hchaves, ?_, ?_⟩ <;> rw [hchaves] <;> decide

/-- C1, at a concrete editor state: row "0" opened for edit, saved. -/
theorem salvarRegra_edit_body_excludes_identity_witness :
    ∃ r : Request,
      (salvarRegra (abrirModalEditar paginaExemplo "0") .rejeitado).requests =
        (abrirModalEditar paginaExemplo "0").requests ++ [r] ∧
      r.body = some [("acao", (abrirModalEditar paginaExemplo "0").modalAcao),
        ("descricao", trim (abrirModalEditar paginaExemplo "0").modalDescricao)] ∧
      r.chaves = ["acao", "descricao"] ∧ "ip" ∉ r.chaves ∧ "porta" ∉ r.chaves :=
  salvarRegra_edit_body_excludes_identity (abrirModalEditar paginaExemplo "0") .rejeitado
    (by decide) (by decide) (by decide) (by decide)

/-! ## C2 -/

/-- C2: the code at the failing input. An action made of one space is empty after
trimming, yet `salvarRegra` reads it untrimmed (line 169, next to three trimmed
reads): the gate lets it through, the request is sent with that action and no
validation message appears. -/
theorem salvarRegra_whitespace_acao_not_blocked :
    trim " " = "" ∧
    (salvarRegra (paginaVazia.digitar "10.0.0.5" "22" " " "") (.resposta true none)).requests =
      [⟨"POST", "/api/regras",
        some [("ip", "10.0.0.5"), ("porta", "22"), ("acao", " "), ("descricao", "")]⟩] ∧
    (salvarRegra (paginaVazia.digitar "10.0.0.5" "22" " " "") (.resposta true none)).alerts =
      [] := by
  decide

/-! ## C5 -/

theorem string_append_left_cancel (a b c : String) (h : a ++ b = a ++ c) : b = c := by
  have hdata := congrArg String.data h
  simp only [String.data_append, List.append_cancel_left_eq] at hdata
  exact String.ext hdata

theorem string_append_right_cancel (a b c : String) (h : a ++ c = b ++ c) : a = b := by
  have hdata := congrArg String.data h
  simp only [String.data_append, List.append_cancel_right_eq] at hdata
  exact String.ext hdata

theorem cardInnerHTML_conectividade_inj (ip porta servico timestamp : String)
    (decisao c1 c2 : JsVal)
    (h : cardInnerHTML ip porta servico timestamp c1 decisao =
      cardInnerHTML ip porta servico timestamp c2 decisao) :
    conectividadeHTML c1 = conectividadeHTML c2 := by
  unfold cardInnerHTML at h
  simp only [String.append_assoc] at h
  iterate 15 replace h := string_append_left_cancel _ _ _ h
  exact string_append_right_cancel _ _ _ h

/-- C5: the connectivity text built in `adicionarTesteAoHistorico` is "Host não
encontrado" for `null`, "Porta ABERTA" for `true` and "Porta FECHADA" for `false`;
the three are pairwise different, so `false` does not render as the unreachable text,
and the cards of results that differ in connectivity only are pairwise different,
whatever text the other fields render as. -/
theorem conectividadeHTML_three_states (ip porta servico timestamp : String)
    (decisao : JsVal) :
    conectividadeHTML .null = "<span class=\"icon\">⚠️</span> Host não encontrado" ∧
    conectividadeHTML (.bool true) = "<span class=\"icon\">✓</span> Porta ABERTA" ∧
    conectividadeHTML (.bool false) = "<span class=\"icon\">✗</span> Porta FECHADA" ∧
    conectividadeHTML .null ≠ conectividadeHTML (.bool true) ∧
    conectividadeHTML .null ≠ conectividadeHTML (.bool false) ∧
    conectividadeHTML (.bool true) ≠ conectividadeHTML (.bool false) ∧
    cardInnerHTML ip porta servico timestamp .null decisao ≠
      cardInnerHTML ip porta servico timestamp (.bool true) decisao ∧
    cardInnerHTML ip porta servico timestamp .null decisao ≠
      cardInnerHTML ip porta servico timestamp (.bool false) decisao ∧
    cardInnerHTML ip porta servico timestamp (.bool true) decisao ≠
      cardInnerHTML ip porta servico timestamp (.bool false) decisao := by
  have h1 : conectividadeHTML .null ≠ conectividadeHTML (.bool true) := by decide
  have h2 : conectividadeHTML .null ≠ conectividadeHTML (.bool false) := by decide
  have h3 : conectividadeHTML (.bool true) ≠ conectividadeHTML (.bool false) := by decide
  exact ⟨rfl, rfl, rfl, h1, h2, h3,
    fun h => h1 (cardInnerHTML_conectividade_inj _ _ _ _ _ _ _ h),
    fun h => h2 (cardInnerHTML_conectividade_inj _ _ _ _ _ _ _ h),
    fun h => h3 (cardInnerHTML_conectividade_inj _ _ _ _ _ _ _ h)⟩

/-! ## C8 -/

/-- C8: from every editor state and form content, `fecharModal` leaves the editor
closed, `editandoIndex` null and the four form fields blank. -/
theorem fecharModal_closed_blank (p : Pagina) :
    (fecharModal p).modalAtivo = false ∧ (fecharModal p).editandoIndex = none ∧
    (fecharModal p).modalIp = "" ∧ (fecharModal p).modalPorta = "" ∧
    (fecharModal p).modalAcao = "" ∧ (fecharModal p).modalDescricao = "" :=
  ⟨rfl, rfl, rfl, rfl, rfl, rfl⟩

/-! ## C3 -/

/-- C3, as stated, fails twice over. A failed test whose body carries an empty `erro`
field gets the generic text, not one built from the field; and `limparTestes` shows
its fixed text although the failed response carries an `erro` field. -/
theorem erro_field_present_but_generic_message :
    (JsVal.obj [("erro", .str "")]).getProp "erro" = some (.str "") ∧
    (testarPacote paginaTeste (.resposta false (some (.obj [("erro", .str "")])))).alerts =
      ["Erro: Erro desconhecido"] ∧
    (limparTestes paginaTeste true
      (.resposta false (some (.obj [("erro", .str "Sem permissão")])))).alerts =
      ["Erro ao limpar histórico"] :=
  ⟨rfl, by decide, by decide⟩

theorem testarPacote_alerts_of_failed (p : Pagina) (json : Option JsVal)
    (h : Operacao.testar.chamaBackend p = true) :
    (testarPacote p (.resposta false json)).alerts = p.alerts ++
      [match json with
        | none => "Erro ao testar pacote"
        | some v =>
          match v.getProp "erro" with
          | none => "Erro ao testar pacote"
          | some e =>
            match (e.orElse "Erro desconhecido").toStr with
            | none => "Erro ao testar pacote"
            | some texto => "Erro: " ++ texto] := by
  simp only [Operacao.chamaBackend, Bool.and_eq_true, bne_iff_ne, ne_eq] at h
  unfold testarPacote
  have hgate : ¬ (trim p.ipInput = "" ∨ trim p.portaInput = "") := by
    rintro (h1 | h1)
    · exact h.1 h1
    · exact h.2 h1
  simp only [hgate, if_false]
  cases json with
  | none => rfl
  | some v =>
    simp only
    cases v.getProp "erro" with
    | none => rfl
    | some e =>
      simp only
      cases (e.orElse "Erro desconhecido").toStr <;> rfl

theorem salvarRegra_alerts_of_failed (p : Pagina) (json : Option JsVal)
    (h : Operacao.salvar.chamaBackend p = true) :
    (salvarRegra p (.resposta false json)).alerts = p.alerts ++
      [match json with
        | none => "Erro ao salvar regra"
        | some v =>
          match v.getProp "erro" with
          | none => "Erro ao salvar regra"
          | some e =>
            match (e.orElse "Erro desconhecido").toStr with
            | none => "Erro ao salvar regra"
            | some texto => "Erro: " ++ texto] := by
  simp only [Operacao.chamaBackend, Bool.and_eq_true, bne_iff_ne, ne_eq] at h
  unfold salvarRegra
  have hgate : ¬ (trim p.modalIp = "" ∨ trim p.modalPorta = "" ∨ p.modalAcao = "") := by
    rintro (h1 | h1 | h1)
    · exact h.1.1 h1
    · exact h.1.2 h1
    · exact h.2 h1
  simp only [hgate, if_false]
  cases json with
  | none => rfl
  | some v =>
    simp only
    cases v.getProp "erro" with
    | none => rfl
    | some e =>
      simp only
      cases (e.orElse "Erro desconhecido").toStr <;> rfl

theorem deletarRegra_alerts_of_failed (p : Pagina) (index : String) (json : Option JsVal) :
    (deletarRegra p index true (.resposta false json)).alerts = p.alerts ++
      [match json with
        | none => "Erro ao deletar regra"
        | some v =>
          match v.getProp "erro" with
          | none => "Erro ao deletar regra"
          | some e =>
            match (e.orElse "Erro desconhecido").toStr with
            | none => "Erro ao deletar regra"
            | some texto => "Erro: " ++ texto] := by
  unfold deletarRegra
  simp only [Bool.not_true, Bool.false_eq_true, if_false]
  cases json with
  | none => rfl
  | some v =>
    simp only
    cases v.getProp "erro" with
    | none => rfl
    | some e =>
      simp only
      cases (e.orElse "Erro desconhecido").toStr <;> rfl

theorem executar_alerts_of_failed (op : Operacao) (p : Pagina) (json : Option JsVal)
    (h : op.chamaBackend p = true) :
    (op.executar p (.resposta false json)).alerts = p.alerts ++
      [match json with
        | none => op.mensagemGenerica
        | some v =>
          match v.getProp "erro" with
          | none => op.mensagemGenerica
          | some e =>
            match (e.orElse "Erro desconhecido").toStr with
            | none => op.mensagemGenerica
            | some texto => "Erro: " ++ texto] := by
  cases op with
  | testar => exact testarPacote_alerts_of_failed p json h
  | salvar => exact salvarRegra_alerts_of_failed p json h
  | deletar index => exact deletarRegra_alerts_of_failed p index json

/-- C3, amended: for `testarPacote`, `salvarRegra` and `deletarRegra`, once the
backend is called and answers with a response that is not `ok`, exactly one message
is shown. It is "Erro: " followed by the `erro` field when the body parses and that
field is a non-empty string, and more generally "Erro: " followed by the string
conversion of the field when the field is truthy (present and not empty, zero, false
or null) and converts. It is "Erro: Erro desconhecido" when the body parses and the
field is absent or falsy. It is the generic message of the operation when the body
does not parse, parses to `null`, or carries a truthy `erro` whose conversion throws,
which is the case of an object with an own `toString` member. -/
theorem erro_message_of_failed_response (op : Operacao) (p : Pagina) (json : Option JsVal)
    (h : op.chamaBackend p = true) :
    (∀ v texto, json = some v → v.getProp "erro" = some (.str texto) → texto ≠ "" →
      (op.executar p (.resposta false json)).alerts = p.alerts ++ ["Erro: " ++ texto]) ∧
    (∀ v e texto, json = some v → v.getProp "erro" = some e → e.truthy = true →
      e.toStr = some texto →
      (op.executar p (.resposta false json)).alerts = p.alerts ++ ["Erro: " ++ texto]) ∧
    (∀ v e, json = some v → v.getProp "erro" = some e → e.truthy = false →
      (op.executar p (.resposta false json)).alerts =
        p.alerts ++ ["Erro: Erro desconhecido"]) ∧
    (∀ v e, json = some v → v.getProp "erro" = some e → e.truthy = true →
      e.toStr = none →
      (op.executar p (.resposta false json)).alerts = p.alerts ++ [op.mensagemGenerica]) ∧
    (∀ v fields, json = some v → v.getProp "erro" = some (.obj fields) →
      temCampo "toString" fields = true →
      (op.executar p (.resposta false json)).alerts = p.alerts ++ [op.mensagemGenerica]) ∧
    (∀ v, json = some v → v.getProp "erro" = none →
      (op.executar p (.resposta false json)).alerts = p.alerts ++ [op.mensagemGenerica]) ∧
    (json = none →
      (op.executar p (.resposta false json)).alerts = p.alerts ++ [op.mensagemGenerica]) := by
  have key := executar_alerts_of_failed op p json h
  have htruthy : ∀ v e texto, json = some v → v.getProp "erro" = some e →
      e.truthy = true → e.toStr = some texto →
      (op.executar p (.resposta false json)).alerts = p.alerts ++ ["Erro: " ++ texto] := by
    intro v e texto hv he ht hs
    rw [key, hv]
    simp only [he, JsVal.orElse, ht, if_true, hs]
  have hthrows : ∀ v e, json = some v → v.getProp "erro" = some e → e.truthy = true →
      e.toStr = none →
      (op.executar p (.resposta false json)).alerts =
        p.alerts ++ [op.mensagemGenerica] := by
    intro v e hv he ht hs
    rw [key, hv]
    simp only [he, JsVal.orElse, ht, if_true, hs]
  refine ⟨?_, htruthy, ?_, hthrows, ?_, ?_, ?_⟩
  · intro v texto hv he hne
    refine htruthy v (.str texto) texto hv he ?_ rfl
    simpa [JsVal.truthy] using hne
  · intro v e hv he ht
    rw [key, hv]
    simp only [he, JsVal.orElse, ht, Bool.false_eq_true, if_false, JsVal.toStr]
    rfl
  · intro v fields hv he hcampo
    refine hthrows v (.obj fields) hv he rfl ?_
    simp [JsVal.toStr, hcampo]
  · intro v hv he
    rw [key, hv]
    simp only [he]
  · intro hv
    rw [key, hv]

/-- C3, amended, at a concrete failure: a rejected test with `erro` "IP inválido". -/
theorem erro_message_of_failed_response_witness :
    (Operacao.testar.executar paginaTeste
      (.resposta false (some (.obj [("erro", .str "IP inválido")])))).alerts =
      paginaTeste.alerts ++ ["Erro: " ++ "IP inválido"] :=
  (erro_message_of_failed_response .testar paginaTeste
    (some (.obj [("erro", .str "IP inválido")])) (by decide)).1
    (.obj [("erro", .str "IP inválido")]) "IP inválido" rfl rfl (by decide)

/-- A failed response whose `erro` is an object with an own `toString` member,
evaluated: the conversion throws and the three operations show their generic text. -/
theorem erro_object_with_toString_scenario :
    (testarPacote paginaTeste
      (.resposta false (some (.obj [("erro", .obj [("toString", .num "1")])])))).alerts =
      ["Erro ao testar pacote"] ∧
    (salvarRegra paginaEditando
      (.resposta false (some (.obj [("erro", .obj [("toString", .num "1")])])))).alerts =
      ["Erro ao salvar regra"] ∧
    (deletarRegra paginaExemplo "0" true
      (.resposta false (some (.obj [("erro", .obj [("toString", .num "1")])])))).alerts =
      ["Erro ao deletar regra"] ∧
    (deletarRegra paginaExemplo "0" true
      (.resposta false (some (.obj [("erro", .obj [("codigo", .num "7")])])))).alerts =
      ["Erro: [object Object]"] ∧
    (deletarRegra paginaExemplo "0" true
      (.resposta false (some (.obj [("erro", .arr [.num "1", .null, .str "a"])])))).alerts =
      ["Erro: 1,,a"] :=
  ⟨by decide, by decide, by decide, by decide, by decide⟩

/-! ## C4 -/

set_option maxRecDepth 100000

/-- C4: the code at the failing input. The history is the empty-state paragraph
alone, and the backend answers `ok` with a result whose service name carries an
element of class `empty-message`. The card is built with that markup pasted in and
put at the head, and no message is shown; then the search for `.empty-message` goes
through the new card first. When the parser finds the element there (as a browser
does) it is that element that is removed, and the empty-state paragraph stays in the
history, behind the card; only a parser that finds nothing in the card lets the
paragraph go. -/
theorem testarPacote_placeholder_stays (buscar : String → Option String) :
    criarCard resultadoMarcado = some (.testeCard cardMarcado) ∧
    (testarPacote (paginaSemTestes buscar)
      (.resposta true (some resultadoMarcado))).testesContainer =
      (match buscar cardMarcado with
        | some resto => [.testeCard resto, .emptyMessage "Nenhum teste realizado ainda"]
        | none => [.testeCard cardMarcado]) ∧
    (testarPacote (paginaSemTestes buscar)
      (.resposta true (some resultadoMarcado))).alerts = [] := by
  have hcard : criarCard resultadoMarcado = some (.testeCard cardMarcado) := rfl
  have hip : ¬ (trim (paginaSemTestes buscar).ipInput = "" ∨
      trim (paginaSemTestes buscar).portaInput = "") := by
    show ¬ (trim " 10.0.0.5" = "" ∨ trim "22 " = "")
    decide
  refine ⟨hcard, ?_, ?_⟩
  · unfold testarPacote
    simp only [hip, if_false, adicionarTesteAoHistorico, Pagina.enviar, hcard]
    show removeEmptyMessage buscar
      [.testeCard cardMarcado, .emptyMessage "Nenhum teste realizado ainda"] = _
    unfold removeEmptyMessage
    cases buscar cardMarcado <;> rfl
  · unfold testarPacote
    simp only [hip, if_false, adicionarTesteAoHistorico, Pagina.enviar, hcard]
    rfl

theorem criarCard_is_card (r : JsVal) (card : Node) (h : criarCard r = some card) :
    ∃ html, card = .testeCard html := by
  unfold criarCard at h
  split at h
  · split at h
    · exact ⟨_, (Option.some.inj h).symm⟩
    · exact absurd h (by simp)
  · exact absurd h (by simp)

theorem testarPacote_of_success (p : Pagina) (r : JsVal) (html : String)
    (hip : trim p.ipInput ≠ "") (hporta : trim p.portaInput ≠ "")
    (hcard : criarCard r = some (.testeCard html))
    (hplain : p.buscarEmptyMessage html = none) :
    (testarPacote p (.resposta true (some r))).testesContainer =
      .testeCard html :: removeEmptyMessage p.buscarEmptyMessage p.testesContainer ∧
    (testarPacote p (.resposta true (some r))).alerts = p.alerts := by
  have hgate : ¬ (trim p.ipInput = "" ∨ trim p.portaInput = "") := by
    rintro (h1 | h1)
    · exact hip h1
    · exact hporta h1
  unfold testarPacote
  simp only [hgate, if_false, adicionarTesteAoHistorico, Pagina.enviar, hcard]
  refine ⟨?_, rfl⟩
  show removeEmptyMessage p.buscarEmptyMessage (.testeCard html :: p.testesContainer) = _
  rw [removeEmptyMessage, hplain]

theorem testarPacote_of_no_card (p : Pagina) (fetch : FetchResult)
    (hip : trim p.ipInput ≠ "") (hporta : trim p.portaInput ≠ "")
    (hno : ∀ r, fetch = .resposta true (some r) → criarCard r = none) :
    (testarPacote p fetch).testesContainer = p.testesContainer ∧
    ∃ msg, (testarPacote p fetch).alerts = p.alerts ++ [msg] := by
  have hgate : ¬ (trim p.ipInput = "" ∨ trim p.portaInput = "") := by
    rintro (h1 | h1)
    · exact hip h1
    · exact hporta h1
  unfold testarPacote
  simp only [hgate, if_false]
  cases fetch with
  | rejeitado => exact ⟨rfl, _, rfl⟩
  | resposta ok json =>
    cases ok with
    | false =>
      cases json with
      | none => exact ⟨rfl, _, rfl⟩
      | some error =>
        simp only
        cases error.getProp "erro" with
        | none => exact ⟨rfl, _, rfl⟩
        | some erro =>
          simp only
          cases (erro.orElse "Erro desconhecido").toStr with
          | none => exact ⟨rfl, _, rfl⟩
          | some texto => exact ⟨rfl, _, rfl⟩
    | true =>
      cases json with
      | none => exact ⟨rfl, _, rfl⟩
      | some r =>
        simp only [adicionarTesteAoHistorico, Pagina.enviar, hno r rfl]
        exact ⟨rfl, _, rfl⟩

/-- What does hold of `testarPacote` when the card of the result holds no element of
class `empty-message`: with an address and a port that are non-empty after trimming,
either the backend answered `ok` with a result whose card could be built, the
history is that card followed by the earlier entries with the first element of class
`empty-message` taken out, and no message is shown; or the history is what it was
and one message is shown. It never both changes the history and shows a message. -/
theorem testarPacote_outcomes_of_plain_card (p : Pagina) (fetch : FetchResult)
    (hip : trim p.ipInput ≠ "") (hporta : trim p.portaInput ≠ "")
    (hplain : ∀ r html, fetch = .resposta true (some r) →
      criarCard r = some (.testeCard html) → p.buscarEmptyMessage html = none) :
    ((∃ r html, fetch = .resposta true (some r) ∧ criarCard r = some (.testeCard html) ∧
        (testarPacote p fetch).testesContainer =
          .testeCard html :: removeEmptyMessage p.buscarEmptyMessage p.testesContainer ∧
        (testarPacote p fetch).alerts = p.alerts) ∨
      ((∀ r, fetch = .resposta true (some r) → criarCard r = none) ∧
        (testarPacote p fetch).testesContainer = p.testesContainer ∧
        ∃ msg, (testarPacote p fetch).alerts = p.alerts ++ [msg])) ∧
    ¬ ((testarPacote p fetch).testesContainer ≠ p.testesContainer ∧
        (testarPacote p fetch).alerts ≠ p.alerts) := by
  have hcases : (∃ r html, fetch = .resposta true (some r) ∧
      criarCard r = some (.testeCard html)) ∨
      (∀ r, fetch = .resposta true (some r) → criarCard r = none) := by
    by_cases hex : ∃ r html, fetch = .resposta true (some r) ∧
        criarCard r = some (.testeCard html)
    · exact Or.inl hex
    · refine Or.inr (fun r hr => ?_)
      cases hc : criarCard r with
      | none => rfl
      | some card =>
        obtain ⟨html, rfl⟩ := criarCard_is_card r card hc
        exact absurd ⟨r, html, hr, hc⟩ hex
  refine ⟨?_, ?_⟩
  · rcases hcases with ⟨r, html, hr, hc⟩ | hno
    · have hnone := hplain r html hr hc
      subst hr
      exact Or.inl ⟨r, html, rfl, hc, testarPacote_of_success p r html hip hporta hc hnone⟩
    · exact Or.inr ⟨hno, testarPacote_of_no_card p fetch hip hporta hno⟩
  · rintro ⟨hchanged, hshown⟩
    rcases hcases with ⟨r, html, hr, hc⟩ | hno
    · have hnone := hplain r html hr hc
      subst hr
      exact hshown (testarPacote_of_success p r html hip hporta hc hnone).2
    · exact hchanged (testarPacote_of_no_card p fetch hip hporta hno).1

/-- The scenario of the spec, evaluated: the new card, rendered open and allowed,
sits at the head of the history, the earlier card follows, nothing is shown, and the
test form is blank again. -/
theorem testarPacote_scenario :
    (testarPacote paginaTeste (.resposta true (some resultadoSsh))).testesContainer =
      [.testeCard cardSsh, .testeCard "<div>10.0.0.5:22</div>"] ∧
    (testarPacote paginaTeste (.resposta true (some resultadoSsh))).alerts = [] ∧
    (testarPacote paginaTeste (.resposta true (some resultadoSsh))).requests =
      [⟨"POST", "/api/testar-pacote", some [("ip", "10.0.0.5"), ("porta", "22")]⟩] ∧
    (testarPacote paginaTeste (.resposta true (some resultadoSsh))).ipInput = "" :=
  ⟨rfl, by decide, by decide, by decide⟩

/-- A result that is `null`, or one with a field that has an own `toString` member,
evaluated: building the card throws, the history stays and the generic message is
shown. -/
theorem testarPacote_unbuildable_card_scenario :
    (testarPacote paginaTeste (.resposta true (some .null))).testesContainer =
      paginaTeste.testesContainer ∧
    (testarPacote paginaTeste (.resposta true (some .null))).alerts =
      ["Erro ao testar pacote"] ∧
    (testarPacote paginaTeste (.resposta true
      (some (.obj [("ip", .obj [("toString", .num "1")])])))).testesContainer =
      paginaTeste.testesContainer ∧
    (testarPacote paginaTeste (.resposta true
      (some (.obj [("ip", .obj [("toString", .num "1")])])))).alerts =
      ["Erro ao testar pacote"] :=
  ⟨by decide, by decide, by decide, by decide⟩

/-! ## C6 -/

theorem abrirModalEditar_editandoIndex (p : Pagina) (index : String) :
    (abrirModalEditar p index).editandoIndex = some index := by
  unfold abrirModalEditar
  dsimp only
  split <;> rfl

theorem abrirModalEditar_requests (p : Pagina) (index : String) :
    (abrirModalEditar p index).requests = p.requests := by
  unfold abrirModalEditar
  dsimp only
  split <;> rfl

/-- C6: once the gate is passed, `salvarRegra` sends `POST /api/regras` when the
editor was last opened by `abrirModalAdicionar`, and `PUT /api/regras/i` when it was
last opened by `abrirModalEditar(i)`, whatever was typed in between and whatever the
state before the opening; the index "0" is edit mode, not create mode. -/
theorem salvarRegra_create_or_update (p : Pagina) (fetch : FetchResult)
    (ip porta acao descricao : String)
    (hip : trim ip ≠ "") (hporta : trim porta ≠ "") (hacao : acao ≠ "") :
    (salvarRegra ((abrirModalAdicionar p).digitar ip porta acao descricao) fetch).requests =
      p.requests ++ [⟨"POST", "/api/regras",
        some [("ip", trim ip), ("porta", trim porta), ("acao", acao),
          ("descricao", trim descricao)]⟩] ∧
    (∀ i, (salvarRegra ((abrirModalEditar p i).digitar ip porta acao descricao)
        fetch).requests =
      p.requests ++ [⟨"PUT", "/api/regras/" ++ i,
        some [("acao", acao), ("descricao", trim descricao)]⟩]) ∧
    (salvarRegra ((abrirModalEditar p "0").digitar ip porta acao descricao) fetch).requests =
      p.requests ++ [⟨"PUT", "/api/regras/0",
        some [("acao", acao), ("descricao", trim descricao)]⟩] := by
  have hgate : ∀ q : Pagina, ¬ (trim (q.digitar ip porta acao descricao).modalIp = "" ∨
      trim (q.digitar ip porta acao descricao).modalPorta = "" ∨
      (q.digitar ip porta acao descricao).modalAcao = "") := by
    intro q
    rintro (h | h | h)
    · exact hip h
    · exact hporta h
    · exact hacao h
  have hedit : ∀ i, (salvarRegra ((abrirModalEditar p i).digitar ip porta acao descricao)
      fetch).requests =
      p.requests ++ [⟨"PUT", "/api/regras/" ++ i,
        some [("acao", acao), ("descricao", trim descricao)]⟩] := by
    intro i
    rw [salvarRegra_requests_of_pass _ fetch (hgate _)]
    show (abrirModalEditar p i).requests ++
      [requestSalvar (abrirModalEditar p i).editandoIndex (trim ip) (trim porta) acao
        (trim descricao)] = _
    rw [abrirModalEditar_requests, abrirModalEditar_editandoIndex]
    rfl
  refine ⟨?_, hedit, hedit "0"⟩
  rw [salvarRegra_requests_of_pass _ fetch (hgate _)]
  rfl

/-- C6, at a concrete session: row "0" opened for edit, the action changed. -/
theorem salvarRegra_create_or_update_witness :
    (salvarRegra ((abrirModalAdicionar paginaExemplo).digitar "192.168.0.1" "80" "BLOQUEAR"
        " ") .rejeitado).requests =
      paginaExemplo.requests ++ [⟨"POST", "/api/regras",
        some [("ip", trim "192.168.0.1"), ("porta", trim "80"), ("acao", "BLOQUEAR"),
          ("descricao", trim " ")]⟩] ∧
    (∀ i, (salvarRegra ((abrirModalEditar paginaExemplo i).digitar "192.168.0.1" "80"
        "BLOQUEAR" " ") .rejeitado).requests =
      paginaExemplo.requests ++ [⟨"PUT", "/api/regras/" ++ i,
        some [("acao", "BLOQUEAR"), ("descricao", trim " ")]⟩]) ∧
    (salvarRegra ((abrirModalEditar paginaExemplo "0").digitar "192.168.0.1" "80" "BLOQUEAR"
        " ") .rejeitado).requests =
      paginaExemplo.requests ++ [⟨"PUT", "/api/regras/0",
        some [("acao", "BLOQUEAR"), ("descricao", trim " ")]⟩] :=
  salvarRegra_create_or_update paginaExemplo .rejeitado "192.168.0.1" "80" "BLOQUEAR" " "
    (by decide) (by decide) (by decide)

/-! ## C7 -/

theorem digitChar_not_seletor :
    ∀ d, d < 10 → caractereDeSeletor (Nat.digitChar d) = false := by
  decide

theorem toDigitsCore_not_seletor (fuel : Nat) : ∀ (n : Nat) (ds : List Char),
    (∀ c ∈ ds, caractereDeSeletor c = false) →
    ∀ c ∈ Nat.toDigitsCore 10 fuel n ds, caractereDeSeletor c = false := by
  induction fuel with
  | zero =>
    intro n ds hds
    simpa [Nat.toDigitsCore] using hds
  | succ fuel ih =>
    intro n ds hds
    have hd : caractereDeSeletor (Nat.digitChar (n % 10)) = false :=
      digitChar_not_seletor _ (Nat.mod_lt _ (by decide))
    have hcons : ∀ c ∈ Nat.digitChar (n % 10) :: ds, caractereDeSeletor c = false := by
      intro c hc
      rcases List.mem_cons.mp hc with rfl | hc
      · exact hd
      · exact hds c hc
    unfold Nat.toDigitsCore
    dsimp only
    split
    · exact hcons
    · exact ih _ _ hcons

/-- A position in the table, written as a decimal numeral, is a plain literal. -/
theorem indiceLiteral_toString (n : Nat) : indiceLiteral (toString n) = true := by
  have h := toDigitsCore_not_seletor (n + 1) n [] (by simp)
  have hall : (toString n).data.any caractereDeSeletor = false := by
    rw [List.any_eq_false]
    intro c hc
    have := h c hc
    simp [this]
  simp [indiceLiteral, hall]

theorem buscarRow_index (index : String) (row : RegraRow) :
    ∀ rows : List RegraRow, buscarRow index rows = some row → row.index = index := by
  intro rows
  induction rows with
  | nil =>
    intro h
    simp [buscarRow] at h
  | cons r rest ih =>
    intro h
    unfold buscarRow at h
    by_cases hr : r.index = index
    · rw [if_pos hr] at h
      exact (Option.some.inj h) ▸ hr
    · rw [if_neg hr] at h
      exact ih h

theorem abrirModalEditar_of_row (p : Pagina) (index : String) (row : RegraRow)
    (hlit : indiceLiteral index = true)
    (hrow : buscarRow index p.regras = some row) :
    abrirModalEditar p index =
      { p with editandoIndex := some index, modalTitle := "Editar Regra",
               modalIp := p.aoAtribuir .modalIp row.ip,
               modalPorta := p.aoAtribuir .modalPorta row.porta,
               modalAcao := p.aoAtribuir .modalAcao (trim row.badge),
               modalDescricao := p.aoAtribuir .modalDescricao
                 (if row.descricao = "-" then "" else row.descricao),
               modalIpDisabled := true, modalPortaDisabled := true, modalAtivo := true } := by
  unfold abrirModalEditar querySelectorRow
  simp only [hlit, if_true, hrow]

/-- C7: from every prior state, a page with no rule included, `abrirModalAdicionar`
gives an open editor whose address and port fields are blank and enabled. And for
every index of a row of the table that goes into the selector as a plain literal, as
every position written as a numeral does, `abrirModalEditar` gives an open editor
whose address and port fields are disabled and hold what the controls make of the
address and port of that row: that very text whenever the controls can hold it. -/
theorem abrirModal_identity_fields (p : Pagina) :
    ((abrirModalAdicionar p).modalAtivo = true ∧
      (abrirModalAdicionar p).modalIp = "" ∧ (abrirModalAdicionar p).modalPorta = "" ∧
      (abrirModalAdicionar p).modalIpDisabled = false ∧
      (abrirModalAdicionar p).modalPortaDisabled = false ∧
      (abrirModalAdicionar p).editandoIndex = none) ∧
    (∀ (index : String) (row : RegraRow), indiceLiteral index = true →
      buscarRow index p.regras = some row →
      (abrirModalEditar p index).modalAtivo = true ∧
      (abrirModalEditar p index).modalIp = p.aoAtribuir .modalIp row.ip ∧
      (abrirModalEditar p index).modalPorta = p.aoAtribuir .modalPorta row.porta ∧
      (p.aoAtribuir .modalIp row.ip = row.ip →
        (abrirModalEditar p index).modalIp = row.ip) ∧
      (p.aoAtribuir .modalPorta row.porta = row.porta →
        (abrirModalEditar p index).modalPorta = row.porta) ∧
      (abrirModalEditar p index).modalIpDisabled = true ∧
      (abrirModalEditar p index).modalPortaDisabled = true ∧
      (abrirModalEditar p index).editandoIndex = some index ∧
      row.index = index) ∧
    (∀ posicao : Nat, indiceLiteral (toString posicao) = true) := by
  refine ⟨⟨rfl, rfl, rfl, rfl, rfl, rfl⟩, ?_, indiceLiteral_toString⟩
  intro index row hlit hrow
  rw [abrirModalEditar_of_row p index row hlit hrow]
  exact ⟨rfl, rfl, rfl, fun h => h, fun h => h, rfl, rfl, rfl,
    buscarRow_index index row _ hrow⟩

/-- C7, at a concrete page left by an earlier edit session with other text typed in:
the editor opened for create, and opened for edit on row "0", which holds
192.168.0.1 and port 80. -/
theorem abrirModal_identity_fields_witness :
    ((abrirModalAdicionar paginaEditando).modalAtivo = true ∧
      (abrirModalAdicionar paginaEditando).modalIp = "" ∧
      (abrirModalAdicionar paginaEditando).modalPorta = "" ∧
      (abrirModalAdicionar paginaEditando).modalIpDisabled = false ∧
      (abrirModalAdicionar paginaEditando).modalPortaDisabled = false ∧
      (abrirModalAdicionar paginaEditando).editandoIndex = none) ∧
    ((abrirModalEditar paginaEditando "0").modalAtivo = true ∧
      (abrirModalEditar paginaEditando "0").modalIp = "192.168.0.1" ∧
      (abrirModalEditar paginaEditando "0").modalPorta = "80" ∧
      (abrirModalEditar paginaEditando "0").modalIpDisabled = true ∧
      (abrirModalEditar paginaEditando "0").modalPortaDisabled = true ∧
      (abrirModalEditar paginaEditando "0").editandoIndex = some "0") :=
  ⟨(abrirModal_identity_fields paginaEditando).1,
    ((abrirModal_identity_fields paginaEditando).2.1 "0"
      ⟨"0", "192.168.0.1", "80", "\n  PERMITIR\n", "-"⟩ (by decide) (by decide)).1,
    ((abrirModal_identity_fields paginaEditando).2.1 "0"
      ⟨"0", "192.168.0.1", "80", "\n  PERMITIR\n", "-"⟩ (by decide) (by decide)).2.2.2.1
      (by decide),
    ((abrirModal_identity_fields paginaEditando).2.1 "0"
      ⟨"0", "192.168.0.1", "80", "\n  PERMITIR\n", "-"⟩ (by decide)
      (by decide)).2.2.2.2.1 (by decide),
    ((abrirModal_identity_fields paginaEditando).2.1 "0"
      ⟨"0", "192.168.0.1", "80", "\n  PERMITIR\n", "-"⟩ (by decide)
      (by decide)).2.2.2.2.2.1,
    ((abrirModal_identity_fields paginaEditando).2.1 "0"
      ⟨"0", "192.168.0.1", "80", "\n  PERMITIR\n", "-"⟩ (by decide)
      (by decide)).2.2.2.2.2.2.1,
    ((abrirModal_identity_fields paginaEditando).2.1 "0"
      ⟨"0", "192.168.0.1", "80", "\n  PERMITIR\n", "-"⟩ (by decide)
      (by decide)).2.2.2.2.2.2.2.1⟩

/-- The create half on a page with no rule at all, and the edit half where it does
not apply, evaluated: with no row for the index, `abrirModalEditar` throws after
setting the edit target and the title, and the editor is not opened. -/
theorem abrirModal_no_rule_scenario :
    (abrirModalAdicionar paginaVazia).modalAtivo = true ∧
    (abrirModalAdicionar paginaVazia).modalIp = "" ∧
    (abrirModalAdicionar paginaVazia).modalIpDisabled = false ∧
    (abrirModalEditar paginaVazia "0").modalAtivo = false ∧
    (abrirModalEditar paginaVazia "0").editandoIndex = some "0" ∧
    (abrirModalEditar paginaVazia "0").uncaught = 1 :=
  ⟨by decide, by decide, by decide, by decide, by decide, by decide⟩

/-! ## C9 -/

/-- C9: when the request of `salvarRegra` fails (no response, or a response that is
not `ok`, whatever its body), the editor is as open as it was, in the same mode with
the same edit target, every form field and both `disabled` flags keep their value,
one message is shown and the page is not reloaded. -/
theorem salvarRegra_failure_keeps_editor (p : Pagina) (fetch : FetchResult)
    (hfail : fetch.falhou = true) :
    (salvarRegra p fetch).modalAtivo = p.modalAtivo ∧
    (salvarRegra p fetch).editandoIndex = p.editandoIndex ∧
    (salvarRegra p fetch).modalTitle = p.modalTitle ∧
    (salvarRegra p fetch).modalIp = p.modalIp ∧
    (salvarRegra p fetch).modalPorta = p.modalPorta ∧
    (salvarRegra p fetch).modalAcao = p.modalAcao ∧
    (salvarRegra p fetch).modalDescricao = p.modalDescricao ∧
    (salvarRegra p fetch).modalIpDisabled = p.modalIpDisabled ∧
    (salvarRegra p fetch).modalPortaDisabled = p.modalPortaDisabled ∧
    (∃ msg, (salvarRegra p fetch).alerts = p.alerts ++ [msg]) ∧
    (salvarRegra p fetch).reloads = p.reloads := by
  unfold salvarRegra
  by_cases hgate : trim p.modalIp = "" ∨ trim p.modalPorta = "" ∨ p.modalAcao = ""
  · simp only [hgate, if_true]
    exact ⟨rfl, rfl, rfl, rfl, rfl, rfl, rfl, rfl, rfl, ⟨_, rfl⟩, rfl⟩
  · simp only [hgate, if_false]
    cases fetch with
    | rejeitado => exact ⟨rfl, rfl, rfl, rfl, rfl, rfl, rfl, rfl, rfl, ⟨_, rfl⟩, rfl⟩
    | resposta ok json =>
      cases ok with
      | true => simp [FetchResult.falhou] at hfail
      | false =>
        cases json with
        | none => exact ⟨rfl, rfl, rfl, rfl, rfl, rfl, rfl, rfl, rfl, ⟨_, rfl⟩, rfl⟩
        | some error =>
          simp only
          cases error.getProp "erro" with
          | none => exact ⟨rfl, rfl, rfl, rfl, rfl, rfl, rfl, rfl, rfl, ⟨_, rfl⟩, rfl⟩
          | some erro =>
            simp only
            cases (erro.orElse "Erro desconhecido").toStr with
            | none => exact ⟨rfl, rfl, rfl, rfl, rfl, rfl, rfl, rfl, rfl, ⟨_, rfl⟩, rfl⟩
            | some texto => exact ⟨rfl, rfl, rfl, rfl, rfl, rfl, rfl, rfl, rfl, ⟨_, rfl⟩, rfl⟩

/-- C9, at a concrete failure: the save of the edited row "0" is refused by the
backend with a message. -/
theorem salvarRegra_failure_keeps_editor_witness :
    (salvarRegra paginaEditando
      (.resposta false (some (.obj [("erro", .str "Regra inválida")])))).modalAtivo =
        paginaEditando.modalAtivo ∧
    (salvarRegra paginaEditando
      (.resposta false (some (.obj [("erro", .str "Regra inválida")])))).editandoIndex =
        paginaEditando.editandoIndex ∧
    (salvarRegra paginaEditando
      (.resposta false (some (.obj [("erro", .str "Regra inválida")])))).modalTitle =
        paginaEditando.modalTitle ∧
    (salvarRegra paginaEditando
      (.resposta false (some (.obj [("erro", .str "Regra inválida")])))).modalIp =
        paginaEditando.modalIp ∧
    (salvarRegra paginaEditando
      (.resposta false (some (.obj [("erro", .str "Regra inválida")])))).modalPorta =
        paginaEditando.modalPorta ∧
    (salvarRegra paginaEditando
      (.resposta false (some (.obj [("erro", .str "Regra inválida")])))).modalAcao =
        paginaEditando.modalAcao ∧
    (salvarRegra paginaEditando
      (.resposta false (some (.obj [("erro", .str "Regra inválida")])))).modalDescricao =
        paginaEditando.modalDescricao ∧
    (salvarRegra paginaEditando
      (.resposta false (some (.obj [("erro", .str "Regra inválida")])))).modalIpDisabled =
        paginaEditando.modalIpDisabled ∧
    (salvarRegra paginaEditando
      (.resposta false (some (.obj [("erro", .str "Regra inválida")])))).modalPortaDisabled =
        paginaEditando.modalPortaDisabled ∧
    (∃ msg, (salvarRegra paginaEditando
      (.resposta false (some (.obj [("erro", .str "Regra inválida")])))).alerts =
        paginaEditando.alerts ++ [msg]) ∧
    (salvarRegra paginaEditando
      (.resposta false (some (.obj [("erro", .str "Regra inválida")])))).reloads =
        paginaEditando.reloads :=
  salvarRegra_failure_keeps_editor paginaEditando
    (.resposta false (some (.obj [("erro", .str "Regra inválida")]))) (by decide)

/-- The same failure, evaluated: the editor is still open on row "0" with what was
typed, and the message of the backend is shown. -/
theorem salvarRegra_failure_scenario :
    (salvarRegra paginaEditando
      (.resposta false (some (.obj [("erro", .str "Regra inválida")])))).modalAtivo = true ∧
    (salvarRegra paginaEditando
      (.resposta false (some (.obj [("erro", .str "Regra inválida")])))).editandoIndex =
        some "0" ∧
    (salvarRegra paginaEditando
      (.resposta false (some (.obj [("erro", .str "Regra inválida")])))).modalAcao =
        "BLOQUEAR" ∧
    (salvarRegra paginaEditando
      (.resposta false (some (.obj [("erro", .str "Regra inválida")])))).alerts =
        ["Erro: Regra inválida"] :=
  ⟨by decide, by decide, by decide, by decide⟩

/-! ## C10 -/

/-- C10, as stated, fails: with the confirmation accepted and the backend refusing
the request, the history is not the lone empty-state paragraph; the earlier card is
still there, and a message is shown. -/
theorem limparTestes_accepted_but_failed :
    (limparTestes paginaExemplo true (.resposta false none)).testesContainer =
      [.testeCard "<div>10.0.0.5:22</div>"] ∧
    (limparTestes paginaExemplo true (.resposta false none)).testesContainer ≠
      [.emptyMessage "Nenhum teste realizado ainda"] ∧
    (limparTestes paginaExemplo true (.resposta false none)).alerts =
      ["Erro ao limpar histórico"] := by
  decide

/-- C10, amended: with the confirmation declined `limparTestes` changes nothing and
sends no request; with the confirmation accepted it sends `DELETE /api/testes`, and
the history becomes the lone empty-state paragraph when the response is `ok`, while
on a response that is not `ok` or no response at all the history stays what it was
and the message "Erro ao limpar histórico" is shown. -/
theorem limparTestes_history (p : Pagina) (fetch : FetchResult) (json : Option JsVal) :
    (limparTestes p false fetch).requests = p.requests ∧
    (limparTestes p false fetch).testesContainer = p.testesContainer ∧
    (limparTestes p false fetch).alerts = p.alerts ∧
    (limparTestes p true fetch).requests = p.requests ++ [⟨"DELETE", "/api/testes", none⟩] ∧
    (limparTestes p true (.resposta true json)).testesContainer =
      [.emptyMessage "Nenhum teste realizado ainda"] ∧
    (limparTestes p true (.resposta true json)).alerts = p.alerts ∧
    (limparTestes p true (.resposta false json)).testesContainer = p.testesContainer ∧
    (limparTestes p true (.resposta false json)).alerts =
      p.alerts ++ ["Erro ao limpar histórico"] ∧
    (limparTestes p true .rejeitado).testesContainer = p.testesContainer ∧
    (limparTestes p true .rejeitado).alerts = p.alerts ++ ["Erro ao limpar histórico"] := by
  refine ⟨rfl, rfl, rfl, ?_, rfl, rfl, rfl, rfl, rfl, rfl⟩
  cases fetch with
  | rejeitado => rfl
  | resposta ok json2 => cases ok <;> rfl

end SimuladorFirewall
